import Mathlib

/-!
Verification development for the Aod-Shop storefront.

The database schema (supabase/migrations/001_initial_schema.sql), the stored
procedures place_order_complete and verify_payment_slip
(supabase/migrations/002_rpc_functions.sql), the Zustand order store
(src/store/orderStore.ts), the cart store (cartStore) and the payment client
(src/lib/thunderClient.ts) are shallowly embedded below.

Modelling conventions:
- UUIDs are modelled as `Nat`, generated from a `next_id` counter in the state
  (the schema generates them with uuid_generate_v4()).
- DECIMAL(10,2) money columns and INTEGER columns are modelled as `Int`.
- Timestamps are opaque `Nat` clock values passed in as `v_now`; GEOGRAPHY
  coordinates are carried opaquely as `Option String`.
- The randomly generated order number (TO_CHAR(NOW(),'YYMMDD') || '-' ||
  LPAD(FLOOR(RANDOM()*100000),5,'0')) is passed in as an oracle argument
  `v_order_number`; its UNIQUE constraint is modelled faithfully.
- SQL NULL for a column is `Option.none`.
- Column CHECK and UNIQUE constraints of the schema are modelled as explicit
  guards at each INSERT/UPDATE; a violation takes the exception path exactly as
  it would abort the SQL statement.  The exact PostgreSQL wording of a
  constraint-violation SQLERRM is abstracted to a short tag string
  ("CHECK_VIOLATION: ...", "UNIQUE_VIOLATION: ...").
- The profiles table, the auth layer and foreign keys into them are not
  modelled; user ids are carried through opaquely.
-/

namespace AodShop

/-- Order status enum of the orders.status column: the CHECK constraint admits
exactly these seven values, so the embedding makes them a closed inductive
type. -/
inductive OrderStatus where
  | pending
  | paid
  | processing
  | shipping
  | delivered
  | cancelled
  | problem
deriving DecidableEq, Repr

/-- The jsonb payloads written to activity_logs.new_data by the two stored
procedures. -/
inductive LogData where
  | orderCreated (order_number : String) (total_price : Int) (items_count : Nat)
  | paymentVerified (t : String) (amount : Int)
deriving DecidableEq, Repr

/-- Row of the singleton store_settings table (fields used by the embedded
operations). -/
structure StoreSettings where
  store_name : String
  flat_shipping_fee : Int
  is_store_open : Bool
deriving DecidableEq, Repr

/-- Row of the products table (timestamps omitted; no claim mentions them). -/
structure Product where
  id : Nat
  name : String
  price : Int
  stock : Int
  image_url : Option String
  is_available : Bool
deriving DecidableEq, Repr

/-- Row of the orders table. -/
structure OrderRow where
  id : Nat
  user_id : Option Nat
  order_number : String
  total_price : Int
  shipping_fee : Int
  shipping_address : String
  shipping_coordinates : Option String
  shipping_method : String
  status : OrderStatus
  payment_slip_url : Option String
  trans_ref : Option String
  thunder_verified : Bool
  verified_at : Option Nat
  created_at : Nat
  updated_at : Nat
deriving DecidableEq, Repr

/-- Row of the order_items table.  The stored generated column
subtotal = quantity * unit_price is recovered by `OrderItemRow.subtotal`. -/
structure OrderItemRow where
  id : Nat
  order_id : Nat
  product_id : Nat
  quantity : Int
  unit_price : Int
deriving DecidableEq, Repr

/-- Generated column subtotal DECIMAL GENERATED ALWAYS AS (quantity * unit_price). -/
def OrderItemRow.subtotal (it : OrderItemRow) : Int :=
  it.quantity * it.unit_price

/-- Row of the activity_logs table (fields written by the embedded operations). -/
structure ActivityLog where
  user_id : Option Nat
  action_type : String
  table_name : Option String
  record_id : Option Nat
  new_data : Option LogData
  error_message : Option String
deriving DecidableEq, Repr

/-- The database state: the singleton settings row, the four tables the claims
are about, and the id generator. -/
structure DBState where
  store_settings : StoreSettings
  products : List Product
  orders : List OrderRow
  order_items : List OrderItemRow
  activity_logs : List ActivityLog
  next_id : Nat
deriving DecidableEq, Repr

/-- State after 001_initial_schema.sql: empty tables and the default
store_settings row (is_store_open defaults to TRUE, flat_shipping_fee to 0). -/
def initState : DBState :=
  { store_settings := { store_name := "Mini Shop", flat_shipping_fee := 0, is_store_open := true }
    products := []
    orders := []
    order_items := []
    activity_logs := []
    next_id := 1 }

/-- The JSONB object returned by the two RPC functions
(keys success / error / order_id / order_number / message). -/
structure RpcResult where
  success : Bool
  error : Option String
  order_id : Option Nat
  order_number : Option String
  message : Option String
deriving DecidableEq, Repr

/-- One element of the p_order_items jsonb array passed to
place_order_complete. -/
structure OrderItemInput where
  product_id : Nat
  quantity : Int
  unit_price : Int
deriving DecidableEq, Repr

/-- UPDATE products SET stock = stock - v_quantity, updated_at = NOW()
WHERE id = v_product_id. -/
def updateStock (ps : List Product) (pid : Nat) (q : Int) : List Product :=
  ps.map (fun p => if p.id == pid then { p with stock := p.stock - q } else p)

/-- The FOR v_item IN jsonb_array_elements(p_order_items) loop of
place_order_complete: for each item, look up the product row with matching id
and is_available = TRUE (NOT FOUND raises PRODUCT_UNAVAILABLE), raise
INSUFFICIENT_STOCK when the locked stock is below the requested quantity, and
otherwise decrement the stock. -/
def processItems : List OrderItemInput → List Product → Except String (List Product)
  | [], ps => Except.ok ps
  | item :: rest, ps =>
    match ps.find? (fun p => p.id == item.product_id && p.is_available) with
    | none =>
      Except.error ("PRODUCT_UNAVAILABLE: Product " ++ toString item.product_id ++ " is not available")
    | some p =>
      if p.stock < item.quantity then
        Except.error ("INSUFFICIENT_STOCK: Product " ++ toString item.product_id ++ " has only "
          ++ toString p.stock ++ " items in stock")
      else
        processItems rest (updateStock ps item.product_id item.quantity)

/-- Does some existing order carry this trans_ref?  Models the SQL predicate
trans_ref = p_trans_ref (NULL compares to nothing). -/
def transRefTaken (orders : List OrderRow) : Option String → Bool
  | none => false
  | some t => orders.any (fun o => o.trans_ref == some t)

/-- The inner BEGIN ... END block of place_order_complete: store-open check,
the per-item stock loop, the INSERT of the order row (CHECK total_price >= 0,
UNIQUE order_number, UNIQUE trans_ref), the INSERT of the order_items rows
(CHECK quantity > 0, CHECK unit_price >= 0) and the ORDER_CREATED activity log.
An `Except.error` models a raised exception: the transaction block is rolled
back, so no table change survives. -/
def placeOrderTxn (s : DBState) (v_now : Nat) (v_order_number : String)
    (p_user_id : Option Nat) (p_shipping_address : String)
    (p_shipping_coordinates : Option String) (p_total_price p_shipping_fee : Int)
    (p_order_items : List OrderItemInput)
    (p_payment_slip_url p_trans_ref : Option String) : Except String DBState :=
  if !s.store_settings.is_store_open then
    Except.error "STORE_CLOSED: Store is currently closed"
  else
    match processItems p_order_items s.products with
    | Except.error e => Except.error e
    | Except.ok ps =>
      if p_total_price < 0 then
        Except.error "CHECK_VIOLATION: orders.total_price"
      else if s.orders.any (fun o => o.order_number == v_order_number) then
        Except.error "UNIQUE_VIOLATION: orders.order_number"
      else if transRefTaken s.orders p_trans_ref then
        Except.error "UNIQUE_VIOLATION: orders.trans_ref"
      else if p_order_items.any (fun it => it.quantity ≤ 0) then
        Except.error "CHECK_VIOLATION: order_items.quantity"
      else if p_order_items.any (fun it => it.unit_price < 0) then
        Except.error "CHECK_VIOLATION: order_items.unit_price"
      else
        Except.ok
          { s with
            products := ps
            orders := s.orders ++
              [{ id := s.next_id
                 user_id := p_user_id
                 order_number := v_order_number
                 total_price := p_total_price
                 shipping_fee := p_shipping_fee
                 shipping_address := p_shipping_address
                 shipping_coordinates := p_shipping_coordinates
                 shipping_method := "delivery"
                 status := OrderStatus.pending
                 payment_slip_url := p_payment_slip_url
                 trans_ref := p_trans_ref
                 thunder_verified := false
                 verified_at := none
                 created_at := v_now
                 updated_at := v_now }]
            order_items := s.order_items ++
              p_order_items.enum.map (fun pr =>
                { id := s.next_id + 1 + pr.1
                  order_id := s.next_id
                  product_id := pr.2.product_id
                  quantity := pr.2.quantity
                  unit_price := pr.2.unit_price })
            activity_logs := s.activity_logs ++
              [{ user_id := p_user_id
                 action_type := "ORDER_CREATED"
                 table_name := some "orders"
                 record_id := some s.next_id
                 new_data := some (LogData.orderCreated v_order_number p_total_price p_order_items.length)
                 error_message := none }]
            next_id := s.next_id + 1 + p_order_items.length }

/-- place_order_complete: run the transactional block; on success return the
new state with a success JSONB, on any exception keep the pre-call tables,
append the ORDER_ERROR activity row with SQLERRM and return success=false with
the error text. -/
def place_order_complete (s : DBState) (v_now : Nat) (v_order_number : String)
    (p_user_id : Option Nat) (p_shipping_address : String)
    (p_shipping_coordinates : Option String) (p_total_price p_shipping_fee : Int)
    (p_order_items : List OrderItemInput)
    (p_payment_slip_url p_trans_ref : Option String) : DBState × RpcResult :=
  match placeOrderTxn s v_now v_order_number p_user_id p_shipping_address
      p_shipping_coordinates p_total_price p_shipping_fee p_order_items
      p_payment_slip_url p_trans_ref with
  | Except.ok s' =>
    (s',
      { success := true
        error := none
        order_id := some s.next_id
        order_number := some v_order_number
        message := some "Order placed successfully" })
  | Except.error msg =>
    ({ s with
        activity_logs := s.activity_logs ++
          [{ user_id := p_user_id
             action_type := "ORDER_ERROR"
             table_name := none
             record_id := none
             new_data := none
             error_message := some msg }] },
      { success := false
        error := some msg
        order_id := none
        order_number := none
        message := none })

/-- The UPDATE orders SET status='paid', trans_ref, thunder_verified,
verified_at, payment_slip_url, updated_at WHERE id = p_order_id of
verify_payment_slip. -/
def verifyUpdate (v_now : Nat) (p_order_id : Nat) (t : String)
    (p_slip_url : Option String) (o : OrderRow) : OrderRow :=
  if o.id == p_order_id then
    { o with
      status := OrderStatus.paid
      trans_ref := some t
      thunder_verified := true
      verified_at := some v_now
      payment_slip_url := p_slip_url
      updated_at := v_now }
  else o

/-- verify_payment_slip: target-order existence check (id = p_order_id and
trans_ref IS NULL), duplicate-trans_ref check, then the simulated Thunder
verification: a NULL or empty p_trans_ref fails (PAYMENT_FAILED log row plus
error result), anything else succeeds (order updated, PAYMENT_VERIFIED log row,
success result). -/
def verify_payment_slip (s : DBState) (v_now : Nat) (p_order_id : Nat)
    (p_trans_ref : Option String) (p_expected_amount : Int)
    (p_slip_url : Option String) : DBState × RpcResult :=
  if !(s.orders.any (fun o => o.id == p_order_id && o.trans_ref == none)) then
    (s,
      { success := false
        error := some "ORDER_NOT_FOUND_OR_ALREADY_VERIFIED"
        order_id := none
        order_number := none
        message := none })
  else if transRefTaken s.orders p_trans_ref then
    (s,
      { success := false
        error := some "DUPLICATE_TRANSACTION_REFERENCE"
        order_id := none
        order_number := none
        message := none })
  else if p_trans_ref == none || p_trans_ref == some "" then
    ({ s with
        activity_logs := s.activity_logs ++
          [{ user_id := none
             action_type := "PAYMENT_FAILED"
             table_name := some "orders"
             record_id := some p_order_id
             new_data := none
             error_message := some "Invalid transaction reference" }] },
      { success := false
        error := some "Invalid transaction reference"
        order_id := none
        order_number := none
        message := none })
  else
    match p_trans_ref with
    | none =>
      -- unreachable: the previous branch already caught p_trans_ref = none
      (s,
        { success := false
          error := some "Invalid transaction reference"
          order_id := none
          order_number := none
          message := none })
    | some t =>
      ({ s with
          orders := s.orders.map (verifyUpdate v_now p_order_id t p_slip_url)
          activity_logs := s.activity_logs ++
            [{ user_id := none
               action_type := "PAYMENT_VERIFIED"
               table_name := some "orders"
               record_id := some p_order_id
               new_data := some (LogData.paymentVerified t p_expected_amount)
               error_message := none }] },
        { success := true
          error := none
          order_id := some p_order_id
          order_number := none
          message := some "Payment verified successfully" })

/-- updateOrderStatus of src/store/orderStore.ts: a single unconditioned
UPDATE orders SET status, updated_at WHERE id = orderId.  The status argument
ranges over the whole `OrderStatus` type: membership in the enum is the only
database-enforced constraint. -/
def updateOrderStatus (s : DBState) (v_now : Nat) (orderId : Nat)
    (status : OrderStatus) : DBState :=
  { s with
    orders := s.orders.map (fun o =>
      if o.id == orderId then { o with status := status, updated_at := v_now } else o) }

/-- Modelled from the spec: the database function increment_product_stock that
cancelOrder invokes via supabase.rpc is not among the repository's migration
files; following the stored-procedure conventions of the spec and the call
site's arguments (product_id, increment), it adds the increment to the
product's stock. -/
def increment_product_stock (ps : List Product) (product_id : Nat)
    (increment : Int) : List Product :=
  ps.map (fun p => if p.id == product_id then { p with stock := p.stock + increment } else p)

/-- cancelOrder of src/store/orderStore.ts: fetch the order (.single() throws
when absent), throw unless the status is still 'pending', restore the stock of
each ordered product via increment_product_stock, then set the status to
'cancelled'.  An `Except.error` models a thrown exception. -/
def cancelOrder (s : DBState) (v_now : Nat) (orderId : Nat) : Except String DBState :=
  match s.orders.find? (fun o => o.id == orderId) with
  | none => Except.error "Order not found"
  | some o =>
    if o.status ≠ OrderStatus.pending then
      Except.error "Cannot cancel order in current status"
    else
      let items := s.order_items.filter (fun it => it.order_id == orderId)
      Except.ok
        { s with
          products := items.foldl
            (fun ps it => increment_product_stock ps it.product_id it.quantity) s.products
          orders := s.orders.map (fun x =>
            if x.id == orderId then { x with status := OrderStatus.cancelled, updated_at := v_now }
            else x) }

/-- Item of the cart store (cartStore). -/
structure CartItem where
  product_id : Nat
  product_name : String
  product_image : Option String
  unit_price : Int
  quantity : Int
  max_quantity : Int
deriving DecidableEq, Repr

/-- addItem of useCartStore: when the product is already in the cart, bump that
item's quantity by the given amount; otherwise append a fresh item. -/
def addItem (items : List CartItem) (product : Product) (quantity : Int) : List CartItem :=
  match items.find? (fun it => it.product_id == product.id) with
  | some _ =>
    items.map (fun it =>
      if it.product_id == product.id then { it with quantity := it.quantity + quantity } else it)
  | none =>
    items ++
      [{ product_id := product.id
         product_name := product.name
         product_image := product.image_url
         unit_price := product.price
         quantity := quantity
         max_quantity := product.stock }]

/-- removeItem of useCartStore. -/
def removeItem (items : List CartItem) (productId : Nat) : List CartItem :=
  items.filter (fun it => !(it.product_id == productId))

/-- updateQuantity of useCartStore: non-positive quantity removes the item, a
positive one is clamped to max_quantity. -/
def updateQuantity (items : List CartItem) (productId : Nat) (quantity : Int) : List CartItem :=
  if quantity ≤ 0 then
    removeItem items productId
  else
    items.map (fun it =>
      if it.product_id == productId then { it with quantity := min quantity it.max_quantity }
      else it)

/-- clearCart of useCartStore. -/
def clearCart (_items : List CartItem) : List CartItem := []

/-- One cart-store action. -/
inductive CartOp where
  | add (product : Product) (quantity : Int)
  | remove (productId : Nat)
  | update (productId : Nat) (quantity : Int)
  | clear
deriving Repr

/-- Apply one cart-store action. -/
def applyCartOp (items : List CartItem) : CartOp → List CartItem
  | CartOp.add p q => addItem items p q
  | CartOp.remove pid => removeItem items pid
  | CartOp.update pid q => updateQuantity items pid q
  | CartOp.clear => clearCart items

/-- The product ids present in the cart. -/
def cartKeys (items : List CartItem) : List Nat :=
  items.map (fun it => it.product_id)

/-- PaymentVerificationRequest of src/lib/thunderClient.ts (slip_url is a
string, empty meaning absent, mirroring JS falsiness of ''). -/
structure PaymentVerificationRequest where
  order_id : Nat
  trans_ref : String
  amount : Int
  slip_url : String
  slip_image_base64 : Option String
deriving DecidableEq, Repr

/-- PaymentVerificationResponse of src/lib/thunderClient.ts. -/
structure PaymentVerificationResponse where
  success : Bool
  verified : Bool
  amount : Int
  trans_ref : String
  timestamp : Nat
  message : Option String
  error : Option String
deriving DecidableEq, Repr

/-- The validationErrors list built by verifyPayment's simulated Thunder
check: short trans_ref, non-positive amount, missing slip. -/
def thunderValidationErrors (d : PaymentVerificationRequest) : List String :=
  (if d.trans_ref == "" || d.trans_ref.length < 5 then ["Invalid transaction reference"] else []) ++
  (if d.amount ≤ 0 then ["Invalid amount"] else []) ++
  (if d.slip_url == "" && d.slip_image_base64 == none then ["No payment slip provided"] else [])

/-- The try block of verifyPayment.  `none` would model a thrown exception;
no statement of the simulated block throws, so the result is always `some`. -/
def verifyPaymentPrimary (v_now : Nat) (d : PaymentVerificationRequest) :
    Option PaymentVerificationResponse :=
  let errs := thunderValidationErrors d
  if !errs.isEmpty then
    some
      { success := false
        verified := false
        amount := d.amount
        trans_ref := d.trans_ref
        timestamp := v_now
        message := none
        error := some (String.intercalate ", " errs) }
  else
    some
      { success := true
        verified := true
        amount := d.amount
        trans_ref := d.trans_ref
        timestamp := v_now
        message := some "Payment verified successfully"
        error := none }

/-- verifyPayment of src/lib/thunderClient.ts: the primary simulated attempt,
with the catch-block fallback to the verify_payment_slip RPC.  The second
component counts the verification attempts made. -/
def verifyPayment (s : DBState) (v_now : Nat) (d : PaymentVerificationRequest) :
    PaymentVerificationResponse × Nat :=
  match verifyPaymentPrimary v_now d with
  | some r => (r, 1)
  | none =>
    let rpc := (verify_payment_slip s v_now d.order_id (some d.trans_ref) d.amount
      (some d.slip_url)).2
    ({ success := rpc.success
       verified := rpc.success
       amount := d.amount
       trans_ref := d.trans_ref
       timestamp := v_now
       message := some (if rpc.success then "Payment verified" else "Verification failed")
       error := none }, 2)

/-- Generic INSERT INTO products, drawing a fresh id.  The CHECK constraints
price >= 0 and stock >= 0 are imposed by the `Step.newProduct` rule. -/
def insertProduct (s : DBState) (name : String) (image_url : Option String)
    (price stock : Int) (is_available : Bool) : DBState :=
  { s with
    products := s.products ++
      [{ id := s.next_id
         name := name
         price := price
         stock := stock
         image_url := image_url
         is_available := is_available }]
    next_id := s.next_id + 1 }

/-- UPDATE of the singleton store_settings row (StoreSettingsForm). -/
def updateStoreSettings (s : DBState) (st : StoreSettings) : DBState :=
  { s with store_settings := st }

/-- One database transition: the operations the application can issue —
the two stored procedures, the order-store updates, admin product creation and
store-settings edits. -/
inductive Step : DBState → DBState → Prop where
  | placeOrder (s : DBState) (v_now : Nat) (v_order_number : String)
      (p_user_id : Option Nat) (addr : String) (coords : Option String)
      (total fee : Int) (items : List OrderItemInput) (slip tref : Option String) :
      Step s (place_order_complete s v_now v_order_number p_user_id addr coords
        total fee items slip tref).1
  | verifySlip (s : DBState) (v_now : Nat) (oid : Nat) (tref : Option String)
      (amt : Int) (slip : Option String) :
      Step s (verify_payment_slip s v_now oid tref amt slip).1
  | updateStatus (s : DBState) (v_now : Nat) (oid : Nat) (st : OrderStatus) :
      Step s (updateOrderStatus s v_now oid st)
  | cancel (s s' : DBState) (v_now : Nat) (oid : Nat)
      (h : cancelOrder s v_now oid = Except.ok s') : Step s s'
  | newProduct (s : DBState) (name : String) (image : Option String)
      (price stock : Int) (avail : Bool) (hp : 0 ≤ price) (hs : 0 ≤ stock) :
      Step s (insertProduct s name image price stock avail)
  | setSettings (s : DBState) (st : StoreSettings) :
      Step s (updateStoreSettings s st)

/-- States reachable from the freshly migrated database. -/
inductive Reachable : DBState → Prop where
  | init : Reachable initState
  | step {s s' : DBState} : Reachable s → Step s s' → Reachable s'

/-- Ids of a product list are pairwise distinct (the PRIMARY KEY of products). -/
def ProductIdsDistinct (ps : List Product) : Prop :=
  ps.Pairwise (fun a b => a.id ≠ b.id)

/-- Ids of an order list are pairwise distinct (the PRIMARY KEY of orders). -/
def OrderIdsDistinct (os : List OrderRow) : Prop :=
  os.Pairwise (fun a b => a.id ≠ b.id)

/-- No two orders carry the same non-null trans_ref (the UNIQUE constraint on
orders.trans_ref). -/
def TransRefsDistinct (os : List OrderRow) : Prop :=
  os.Pairwise (fun a b => ∀ u, a.trans_ref = some u → b.trans_ref ≠ some u)

/-- A sample product row used to instantiate theorems on concrete data. -/
def sampleProduct : Product :=
  { id := 1, name := "Apple", price := 50, stock := 10, image_url := none, is_available := true }

/-- A sample pending, unverified order. -/
def sampleOrder : OrderRow :=
  { id := 2
    user_id := none
    order_number := "241011-00001"
    total_price := 100
    shipping_fee := 20
    shipping_address := "Bangkok"
    shipping_coordinates := none
    shipping_method := "delivery"
    status := OrderStatus.pending
    payment_slip_url := none
    trans_ref := none
    thunder_verified := false
    verified_at := none
    created_at := 0
    updated_at := 0 }

/-- A sample order that has already been verified (it carries a trans_ref). -/
def sampleOrder5 : OrderRow :=
  { id := 5
    user_id := none
    order_number := "241011-00002"
    total_price := 70
    shipping_fee := 0
    shipping_address := "Chiang Mai"
    shipping_coordinates := none
    shipping_method := "pickup"
    status := OrderStatus.paid
    payment_slip_url := some "slips/a.jpg"
    trans_ref := some "TXREF"
    thunder_verified := true
    verified_at := some 1
    created_at := 0
    updated_at := 1 }

/-- A sample database state with one product, a pending order (id 2) with one
order item, and an already verified order (id 5). -/
def sampleState : DBState :=
  { store_settings := { store_name := "Mini Shop", flat_shipping_fee := 0, is_store_open := true }
    products := [sampleProduct]
    orders := [sampleOrder, sampleOrder5]
    order_items := [{ id := 3, order_id := 2, product_id := 1, quantity := 2, unit_price := 50 }]
    activity_logs := []
    next_id := 6 }

/-- C7: updateOrderStatus performs an unconditioned UPDATE: whatever the
order's current status is, and for every target status among the seven enum
values (the domain of `OrderStatus`, the only database-enforced constraint),
the order's status becomes the requested value and every other order row is
untouched. -/
theorem C7_update_status_unrestricted (s : DBState) (v_now : Nat) (orderId : Nat)
    (st : OrderStatus) :
    (∀ o ∈ s.orders, o.id = orderId →
      ({ o with status := st, updated_at := v_now } : OrderRow) ∈
        (updateOrderStatus s v_now orderId st).orders) ∧
    (∀ o ∈ s.orders, o.id ≠ orderId → o ∈ (updateOrderStatus s v_now orderId st).orders) := by
  constructor
  · intro o ho hid
    have hmem := List.mem_map_of_mem
      (fun o => if o.id == orderId then { o with status := st, updated_at := v_now } else o) ho
    simpa [updateOrderStatus, hid] using hmem
  · intro o ho hid
    have hmem := List.mem_map_of_mem
      (fun o => if o.id == orderId then { o with status := st, updated_at := v_now } else o) ho
    simpa [updateOrderStatus, hid] using hmem

/-- Witness for C7 at a concrete state: a pending order is moved straight to
'delivered'. -/
theorem C7_update_status_unrestricted_witness :
    ({ sampleOrder with status := OrderStatus.delivered, updated_at := 9 } : OrderRow) ∈
      (updateOrderStatus sampleState 9 2 OrderStatus.delivered).orders ∧
    sampleOrder5 ∈ (updateOrderStatus sampleState 9 2 OrderStatus.delivered).orders :=
  ⟨(C7_update_status_unrestricted sampleState 9 2 OrderStatus.delivered).1 sampleOrder
      (by simp [sampleState]) rfl,
    (C7_update_status_unrestricted sampleState 9 2 OrderStatus.delivered).2 sampleOrder5
      (by simp [sampleState]) (by decide)⟩

/-- The cart keys are unchanged by a map that does not touch product_id. -/
theorem cartKeys_map_of_id_fixed (items : List CartItem) (f : CartItem → CartItem)
    (hf : ∀ it, (f it).product_id = it.product_id) :
    cartKeys (items.map f) = cartKeys items := by
  induction items with
  | nil => rfl
  | cons a l ih =>
    simp only [cartKeys, List.map] at *
    exact congrArg₂ List.cons (hf a) ih

/-- addItem preserves distinctness of the cart's product ids. -/
theorem nodup_addItem (items : List CartItem) (p : Product) (q : Int)
    (h : (cartKeys items).Nodup) : (cartKeys (addItem items p q)).Nodup := by
  unfold addItem
  cases hf : items.find? (fun it => it.product_id == p.id) with
  | some it0 =>
    rw [cartKeys_map_of_id_fixed]
    · exact h
    · intro it
      by_cases hid : it.product_id == p.id <;> simp [hid]
  | none =>
    have hnot : p.id ∉ cartKeys items := by
      intro hmem
      rcases List.mem_map.mp hmem with ⟨it, hit, hid⟩
      have := List.find?_eq_none.mp hf it hit
      simp [hid] at this
    simp only [cartKeys, List.map_append, List.map]
    refine List.Nodup.append h (List.nodup_singleton _) ?_
    intro a ha hb
    rw [List.mem_singleton] at hb
    exact hnot (hb ▸ ha)

/-- removeItem preserves distinctness of the cart's product ids. -/
theorem nodup_removeItem (items : List CartItem) (pid : Nat)
    (h : (cartKeys items).Nodup) : (cartKeys (removeItem items pid)).Nodup :=
  List.Nodup.sublist (List.Sublist.map _ (List.filter_sublist items)) h

/-- Every single cart action preserves distinctness of the product ids. -/
theorem nodup_applyCartOp (items : List CartItem) (op : CartOp)
    (h : (cartKeys items).Nodup) : (cartKeys (applyCartOp items op)).Nodup := by
  cases op with
  | add p q => exact nodup_addItem items p q h
  | remove pid => exact nodup_removeItem items pid h
  | update pid q =>
    show (cartKeys (updateQuantity items pid q)).Nodup
    unfold updateQuantity
    by_cases hq : q ≤ 0
    · simpa [hq] using nodup_removeItem items pid h
    · rw [if_neg hq, cartKeys_map_of_id_fixed]
      · exact h
      · intro it
        by_cases hid : it.product_id == pid <;> simp [hid]
  | clear => simp [applyCartOp, clearCart, cartKeys]

/-- C10: starting from the empty cart, every sequence of cart-store actions
(addItem, removeItem, updateQuantity, clearCart) leaves the cart with pairwise
distinct product_ids: addItem merges into an existing line instead of
appending a duplicate. -/
theorem C10_cart_keys_distinct (ops : List CartOp) :
    (cartKeys (ops.foldl applyCartOp [])).Nodup := by
  have main : ∀ (l : List CartOp) (items : List CartItem),
      (cartKeys items).Nodup → (cartKeys (l.foldl applyCartOp items)).Nodup := by
    intro l
    induction l with
    | nil => exact fun items h => h
    | cons op rest ih => exact fun items h => ih _ (nodup_applyCartOp items op h)
  exact main ops [] (by simp [cartKeys])

/-- C8: the payment client makes exactly one verification attempt per request:
the simulated primary attempt always returns (it never throws), so the
catch-block fallback to the verify_payment_slip RPC is never taken, and a
failed validation is reported straight back to the caller. -/
theorem C8_verify_payment_single_attempt (s : DBState) (v_now : Nat)
    (d : PaymentVerificationRequest) :
    (verifyPayment s v_now d).2 = 1 ∧
    (thunderValidationErrors d ≠ [] →
      (verifyPayment s v_now d).1.success = false ∧
      (verifyPayment s v_now d).1.error =
        some (String.intercalate ", " (thunderValidationErrors d))) := by
  by_cases h : (thunderValidationErrors d).isEmpty
  · refine ⟨by simp [verifyPayment, verifyPaymentPrimary, h], fun hne => absurd ?_ hne⟩
    exact List.isEmpty_iff.mp h
  · exact ⟨by simp [verifyPayment, verifyPaymentPrimary, h],
      fun _ => by simp [verifyPayment, verifyPaymentPrimary, h]⟩

/-- Witness for C8: a request with a too-short transaction reference is
rejected in a single attempt, with the validation error surfaced. -/
theorem C8_verify_payment_single_attempt_witness :
    (verifyPayment sampleState 0
      { order_id := 2, trans_ref := "AB", amount := 100, slip_url := "slips/a.jpg",
        slip_image_base64 := none }).2 = 1 ∧
    (verifyPayment sampleState 0
      { order_id := 2, trans_ref := "AB", amount := 100, slip_url := "slips/a.jpg",
        slip_image_base64 := none }).1.success = false :=
  ⟨(C8_verify_payment_single_attempt sampleState 0 _).1,
    ((C8_verify_payment_single_attempt sampleState 0 _).2 (by decide)).1⟩

/-- A sample state whose store is closed. -/
def sampleClosed : DBState :=
  updateStoreSettings sampleState
    { store_name := "Mini Shop", flat_shipping_fee := 0, is_store_open := false }

/-- C1 (amended): whenever place_order_complete returns success=false it
leaves orders, order_items and products unchanged, appends one ORDER_ERROR
activity row carrying the error message, and returns that message; whenever
verify_payment_slip returns success=false it leaves the three tables unchanged
and returns a textual error; moreover (third part) every
ORDER_NOT_FOUND_OR_ALREADY_VERIFIED or DUPLICATE_TRANSACTION_REFERENCE failure
leaves the whole state — the activity log included — untouched, and (fourth
part) every simulated-API rejection appends exactly one PAYMENT_FAILED
activity row carrying its message. -/
theorem C1_failure_effects :
    (∀ (s : DBState) (v_now : Nat) (onum : String) (uid : Option Nat) (addr : String)
        (coords : Option String) (total fee : Int) (items : List OrderItemInput)
        (slip tref : Option String),
      (place_order_complete s v_now onum uid addr coords total fee items slip tref).2.success
          = false →
      (place_order_complete s v_now onum uid addr coords total fee items slip tref).1.orders
          = s.orders ∧
      (place_order_complete s v_now onum uid addr coords total fee items slip tref).1.order_items
          = s.order_items ∧
      (place_order_complete s v_now onum uid addr coords total fee items slip tref).1.products
          = s.products ∧
      ∃ msg,
        (place_order_complete s v_now onum uid addr coords total fee items slip tref).2.error
            = some msg ∧
        (place_order_complete s v_now onum uid addr coords total fee items slip tref).1.activity_logs
            = s.activity_logs ++
          [{ user_id := uid, action_type := "ORDER_ERROR", table_name := none,
             record_id := none, new_data := none, error_message := some msg }]) ∧
    (∀ (s : DBState) (v_now : Nat) (oid : Nat) (tref : Option String) (amt : Int)
        (slip : Option String),
      (verify_payment_slip s v_now oid tref amt slip).2.success = false →
      (verify_payment_slip s v_now oid tref amt slip).1.orders = s.orders ∧
      (verify_payment_slip s v_now oid tref amt slip).1.order_items = s.order_items ∧
      (verify_payment_slip s v_now oid tref amt slip).1.products = s.products ∧
      ∃ msg,
        (verify_payment_slip s v_now oid tref amt slip).2.error = some msg ∧
        ((verify_payment_slip s v_now oid tref amt slip).1.activity_logs = s.activity_logs ∨
          (verify_payment_slip s v_now oid tref amt slip).1.activity_logs = s.activity_logs ++
            [{ user_id := none, action_type := "PAYMENT_FAILED", table_name := some "orders",
               record_id := some oid, new_data := none, error_message := some msg }])) ∧
    (∀ (s : DBState) (v_now : Nat) (oid : Nat) (tref : Option String) (amt : Int)
        (slip : Option String),
      ((verify_payment_slip s v_now oid tref amt slip).2.error
          = some "ORDER_NOT_FOUND_OR_ALREADY_VERIFIED" ∨
        (verify_payment_slip s v_now oid tref amt slip).2.error
          = some "DUPLICATE_TRANSACTION_REFERENCE") →
      (verify_payment_slip s v_now oid tref amt slip).1 = s) ∧
    (∀ (s : DBState) (v_now : Nat) (oid : Nat) (tref : Option String) (amt : Int)
        (slip : Option String),
      (verify_payment_slip s v_now oid tref amt slip).2.error
          = some "Invalid transaction reference" →
      (verify_payment_slip s v_now oid tref amt slip).1.activity_logs = s.activity_logs ++
        [{ user_id := none, action_type := "PAYMENT_FAILED", table_name := some "orders",
           record_id := some oid, new_data := none,
           error_message := some "Invalid transaction reference" }]) := by
  refine ⟨?_, ?_, ?_, ?_⟩
  · intro s v_now onum uid addr coords total fee items slip tref hfail
    cases h : placeOrderTxn s v_now onum uid addr coords total fee items slip tref with
    | ok s' => simp [place_order_complete, h] at hfail
    | error msg =>
      refine ⟨?_, ?_, ?_, msg, ?_, ?_⟩ <;> simp [place_order_complete, h]
  · intro s v_now oid tref amt slip hfail
    by_cases h1 : (s.orders.any fun o => o.id == oid && o.trans_ref == none) = false
    · refine ⟨?_, ?_, ?_, "ORDER_NOT_FOUND_OR_ALREADY_VERIFIED", ?_, Or.inl ?_⟩ <;>
        simp [verify_payment_slip, h1]
    · rw [Bool.not_eq_false] at h1
      by_cases h2 : transRefTaken s.orders tref = true
      · refine ⟨?_, ?_, ?_, "DUPLICATE_TRANSACTION_REFERENCE", ?_, Or.inl ?_⟩ <;>
          simp [verify_payment_slip, h1, h2]
      · rw [Bool.not_eq_true] at h2
        by_cases h3 : (tref == (none : Option String) || tref == some "") = true
        · refine ⟨?_, ?_, ?_, "Invalid transaction reference", ?_, Or.inr ?_⟩ <;>
            simp [verify_payment_slip, h1, h2, h3]
        · rw [Bool.not_eq_true] at h3
          cases tref with
          | none => simp at h3
          | some t =>
            have ht : ¬ t = "" := by simpa using h3
            simp [verify_payment_slip, h1, h2, ht] at hfail
  · intro s v_now oid tref amt slip hmsg
    by_cases h1 : (s.orders.any fun o => o.id == oid && o.trans_ref == none) = true
    · by_cases h2 : transRefTaken s.orders tref = true
      · simp [verify_payment_slip, h1, h2]
      · rw [Bool.not_eq_true] at h2
        by_cases h3 : (tref == (none : Option String) || tref == some "") = true
        · have hres : (verify_payment_slip s v_now oid tref amt slip).2.error
              = some "Invalid transaction reference" := by
            simp [verify_payment_slip, h1, h2, h3]
          rw [hres] at hmsg
          rcases hmsg with h | h <;> exact absurd h (by decide)
        · rw [Bool.not_eq_true] at h3
          cases tref with
          | none => simp at h3
          | some t =>
            have ht : ¬ t = "" := by simpa using h3
            have hres : (verify_payment_slip s v_now oid (some t) amt slip).2.error
                = none := by
              simp [verify_payment_slip, h1, h2, ht]
            rw [hres] at hmsg
            rcases hmsg with h | h <;> simp at h
    · rw [Bool.not_eq_true] at h1
      simp [verify_payment_slip, h1]
  · intro s v_now oid tref amt slip hmsg
    by_cases h1 : (s.orders.any fun o => o.id == oid && o.trans_ref == none) = true
    · by_cases h2 : transRefTaken s.orders tref = true
      · have hres : (verify_payment_slip s v_now oid tref amt slip).2.error
            = some "DUPLICATE_TRANSACTION_REFERENCE" := by
          simp [verify_payment_slip, h1, h2]
        rw [hres] at hmsg
        exact absurd hmsg (by decide)
      · rw [Bool.not_eq_true] at h2
        by_cases h3 : (tref == (none : Option String) || tref == some "") = true
        · simp [verify_payment_slip, h1, h2, h3]
        · rw [Bool.not_eq_true] at h3
          cases tref with
          | none => simp at h3
          | some t =>
            have ht : ¬ t = "" := by simpa using h3
            have hres : (verify_payment_slip s v_now oid (some t) amt slip).2.error
                = none := by
              simp [verify_payment_slip, h1, h2, ht]
            rw [hres] at hmsg
            simp at hmsg
    · rw [Bool.not_eq_true] at h1
      have hres : (verify_payment_slip s v_now oid tref amt slip).2.error
          = some "ORDER_NOT_FOUND_OR_ALREADY_VERIFIED" := by
        simp [verify_payment_slip, h1]
      rw [hres] at hmsg
      exact absurd hmsg (by decide)

/-- Counterexample to C1 as stated: a verify_payment_slip call that returns
success=false (order 1 does not exist in the fresh database) yet appends no
activity_logs row at all. -/
theorem C1_counterexample :
    (verify_payment_slip initState 0 1 (some "TX123") 100 none).2.success = false ∧
    (verify_payment_slip initState 0 1 (some "TX123") 100 none).2.error =
      some "ORDER_NOT_FOUND_OR_ALREADY_VERIFIED" ∧
    (verify_payment_slip initState 0 1 (some "TX123") 100 none).1.activity_logs = [] := by
  decide

/-- Witness for C1 at concrete failing calls: a closed-store order attempt
leaves the orders table unchanged, a verification of a non-existent order
leaves the whole state (log included) unchanged, and an empty transaction
reference appends the PAYMENT_FAILED row. -/
theorem C1_failure_effects_witness :
    (place_order_complete sampleClosed 0 "N1" none "addr" none 10 0 [] none none).1.orders
      = sampleClosed.orders ∧
    (verify_payment_slip sampleState 0 99 (some "TX1") 5 none).1.products
      = sampleState.products ∧
    (verify_payment_slip sampleState 0 99 (some "TX1") 5 none).1 = sampleState ∧
    (verify_payment_slip sampleState 0 2 (some "") 5 none).1.activity_logs
      = sampleState.activity_logs ++
        [{ user_id := none, action_type := "PAYMENT_FAILED", table_name := some "orders",
           record_id := some 2, new_data := none,
           error_message := some "Invalid transaction reference" }] :=
  ⟨(C1_failure_effects.1 sampleClosed 0 "N1" none "addr" none 10 0 [] none none (by decide)).1,
    (C1_failure_effects.2.1 sampleState 0 99 (some "TX1") 5 none (by decide)).2.2.1,
    C1_failure_effects.2.2.1 sampleState 0 99 (some "TX1") 5 none (Or.inl (by decide)),
    C1_failure_effects.2.2.2 sampleState 0 2 (some "") 5 none (by decide)⟩

/-- C6: verify_payment_slip on an order whose trans_ref is NULL, with a
non-empty reference carried by no existing order, succeeds and updates exactly
that order (status 'paid', trans_ref, thunder_verified, payment_slip_url,
verified_at) leaving every other order row unchanged; a target order that does
not exist or already carries a trans_ref yields success=false with
ORDER_NOT_FOUND_OR_ALREADY_VERIFIED and no change at all. -/
theorem C6_verify_payment_behavior (s : DBState) (v_now : Nat) (oid : Nat) (t : String)
    (amt : Int) (slip : Option String) :
    ((∃ o ∈ s.orders, o.id = oid ∧ o.trans_ref = none) → t ≠ "" →
      (∀ o ∈ s.orders, o.trans_ref ≠ some t) →
      (verify_payment_slip s v_now oid (some t) amt slip).2 =
        { success := true, error := none, order_id := some oid, order_number := none,
          message := some "Payment verified successfully" } ∧
      (∀ o ∈ s.orders, o.id = oid →
        ({ o with
            status := OrderStatus.paid, trans_ref := some t, thunder_verified := true,
            verified_at := some v_now, payment_slip_url := slip, updated_at := v_now } : OrderRow) ∈
          (verify_payment_slip s v_now oid (some t) amt slip).1.orders) ∧
      (∀ o ∈ s.orders, o.id ≠ oid →
        o ∈ (verify_payment_slip s v_now oid (some t) amt slip).1.orders) ∧
      (verify_payment_slip s v_now oid (some t) amt slip).1.order_items = s.order_items ∧
      (verify_payment_slip s v_now oid (some t) amt slip).1.products = s.products) ∧
    ((∀ o ∈ s.orders, o.id = oid → o.trans_ref ≠ none) →
      verify_payment_slip s v_now oid (some t) amt slip =
        (s, { success := false, error := some "ORDER_NOT_FOUND_OR_ALREADY_VERIFIED",
              order_id := none, order_number := none, message := none })) := by
  constructor
  · intro hex ht hfresh
    have hany : (s.orders.any fun o => o.id == oid && o.trans_ref == none) = true := by
      rcases hex with ⟨o, ho, hid, htr⟩
      exact List.any_eq_true.mpr ⟨o, ho, by simp [hid, htr]⟩
    have hdup : transRefTaken s.orders (some t) = false := by
      unfold transRefTaken
      refine List.any_eq_false.mpr ?_
      intro o ho
      simpa using hfresh o ho
    have hcond : ((some t == (none : Option String)) || (some t == some "")) = false := by
      simp [ht]
    refine ⟨by simp [verify_payment_slip, hany, hdup, hcond, ht], ?_, ?_, ?_, ?_⟩
    · intro o ho hid
      have hmem := List.mem_map_of_mem (verifyUpdate v_now oid t slip) ho
      have hfo : verifyUpdate v_now oid t slip o =
          { o with
              status := OrderStatus.paid, trans_ref := some t, thunder_verified := true,
              verified_at := some v_now, payment_slip_url := slip, updated_at := v_now } := by
        simp [verifyUpdate, hid]
      rw [hfo] at hmem
      simpa [verify_payment_slip, hany, hdup, hcond, ht] using hmem
    · intro o ho hid
      have hmem := List.mem_map_of_mem (verifyUpdate v_now oid t slip) ho
      have hfo : verifyUpdate v_now oid t slip o = o := by
        simp [verifyUpdate, hid]
      rw [hfo] at hmem
      simpa [verify_payment_slip, hany, hdup, hcond, ht] using hmem
    · simp [verify_payment_slip, hany, hdup, hcond, ht]
    · simp [verify_payment_slip, hany, hdup, hcond, ht]
  · intro hno
    have hany : (s.orders.any fun o => o.id == oid && o.trans_ref == none) = false := by
      refine List.any_eq_false.mpr ?_
      intro o ho
      intro hco
      rw [Bool.and_eq_true, beq_iff_eq, beq_iff_eq] at hco
      exact hno o ho hco.1 hco.2
    simp [verify_payment_slip, hany]

/-- Witness for C6: verifying the pending order of the sample state with a
fresh reference succeeds; re-targeting the already verified order fails. -/
theorem C6_verify_payment_behavior_witness :
    (verify_payment_slip sampleState 3 2 (some "TX999") 100 (some "slips/b.jpg")).2.success
      = true ∧
    verify_payment_slip sampleState 3 5 (some "TX999") 100 none =
      (sampleState,
        { success := false, error := some "ORDER_NOT_FOUND_OR_ALREADY_VERIFIED",
          order_id := none, order_number := none, message := none }) := by
  constructor
  · have h := (C6_verify_payment_behavior sampleState 3 2 "TX999" 100 (some "slips/b.jpg")).1
      ⟨sampleOrder, by simp [sampleState], rfl, rfl⟩ (by decide) (by decide)
    rw [h.1]
  · exact (C6_verify_payment_behavior sampleState 3 5 "TX999" 100 none).2 (by decide)

/-- Total quantity that rows of an order_items list request for one product. -/
def qtySum (l : List OrderItemRow) (pid : Nat) : Int :=
  ((l.filter (fun it => it.product_id == pid)).map (fun it => it.quantity)).sum

/-- With pairwise-distinct ids (the PRIMARY KEY), find? by id returns exactly
the member with that id. -/
theorem find?_id_eq_some (l : List OrderRow) (oid : Nat) (o : OrderRow)
    (h : OrderIdsDistinct l) (ho : o ∈ l) (hid : o.id = oid) :
    l.find? (fun x => x.id == oid) = some o := by
  induction l with
  | nil => cases ho
  | cons a tl ih =>
    rcases List.pairwise_cons.mp h with ⟨ha, htl⟩
    rcases List.mem_cons.mp ho with rfl | hmem
    · exact List.find?_cons_of_pos tl (by simp [hid])
    · have hne : ¬(a.id == oid) = true := by
        have := ha o hmem
        simp [← hid, this]
      rw [List.find?_cons_of_neg tl hne]
      exact ih htl hmem

/-- Folding increment_product_stock over a list of order items adds, to each
product already present, the summed quantity that the items request for it. -/
theorem mem_stock_foldl (l : List OrderItemRow) :
    ∀ (ps : List Product) (p : Product), p ∈ ps →
      ({ p with stock := p.stock + qtySum l p.id } : Product) ∈
        l.foldl (fun acc it => increment_product_stock acc it.product_id it.quantity) ps := by
  induction l with
  | nil =>
    intro ps p hp
    simpa [qtySum] using hp
  | cons it rest ih =>
    intro ps p hp
    show ({ p with stock := p.stock + qtySum (it :: rest) p.id } : Product) ∈
      rest.foldl (fun acc x => increment_product_stock acc x.product_id x.quantity)
        (increment_product_stock ps it.product_id it.quantity)
    by_cases hid : p.id = it.product_id
    · have hmem : ({ p with stock := p.stock + it.quantity } : Product) ∈
          increment_product_stock ps it.product_id it.quantity := by
        have := List.mem_map_of_mem
          (fun x => if x.id == it.product_id then { x with stock := x.stock + it.quantity } else x) hp
        simpa [increment_product_stock, hid] using this
      have hq : qtySum (it :: rest) p.id = it.quantity + qtySum rest p.id := by
        simp [qtySum, List.filter_cons, hid]
      have := ih (increment_product_stock ps it.product_id it.quantity)
        ({ p with stock := p.stock + it.quantity }) hmem
      simpa [hq, add_assoc] using this
    · have hmem : p ∈ increment_product_stock ps it.product_id it.quantity := by
        have := List.mem_map_of_mem
          (fun x => if x.id == it.product_id then { x with stock := x.stock + it.quantity } else x) hp
        simpa [increment_product_stock, hid] using this
      have hq : qtySum (it :: rest) p.id = qtySum rest p.id := by
        have : ¬(it.product_id == p.id) = true := by
          simp
          exact fun hc => hid hc.symm
        simp [qtySum, List.filter_cons, this]
      have := ih (increment_product_stock ps it.product_id it.quantity) p hmem
      simpa [hq] using this

/-- C9: cancelOrder on an order that is not 'pending' throws and changes
nothing; on a pending order it succeeds, adds to each product's stock the
quantity that the order's items requested for it (via the spec-modelled
increment_product_stock), marks exactly that order 'cancelled' and leaves
every other order and the order_items table untouched. -/
theorem C9_cancel_pending_only (s : DBState) (v_now : Nat) (oid : Nat) (o : OrderRow)
    (ho : o ∈ s.orders) (hid : o.id = oid) (hids : OrderIdsDistinct s.orders) :
    (o.status ≠ OrderStatus.pending →
      cancelOrder s v_now oid = Except.error "Cannot cancel order in current status") ∧
    (o.status = OrderStatus.pending →
      ∃ s', cancelOrder s v_now oid = Except.ok s' ∧
        (∀ p ∈ s.products,
          ({ p with
              stock := p.stock +
                qtySum (s.order_items.filter (fun it => it.order_id == oid)) p.id } : Product) ∈
            s'.products) ∧
        ({ o with status := OrderStatus.cancelled, updated_at := v_now } : OrderRow) ∈ s'.orders ∧
        (∀ x ∈ s.orders, x.id ≠ oid → x ∈ s'.orders) ∧
        s'.order_items = s.order_items ∧
        s'.activity_logs = s.activity_logs) := by
  have hfind := find?_id_eq_some s.orders oid o hids ho hid
  constructor
  · intro hst
    simp [cancelOrder, hfind, hst]
  · intro hst
    refine ⟨{ s with
        products := (s.order_items.filter (fun it => it.order_id == oid)).foldl
          (fun ps it => increment_product_stock ps it.product_id it.quantity) s.products
        orders := s.orders.map (fun x =>
          if x.id == oid then { x with status := OrderStatus.cancelled, updated_at := v_now }
          else x) },
      ?_, ?_, ?_, ?_, rfl, rfl⟩
    · simp [cancelOrder, hfind, hst]
    · intro p hp
      exact mem_stock_foldl _ s.products p hp
    · have hmem := List.mem_map_of_mem
        (fun x => if x.id == oid then { x with status := OrderStatus.cancelled, updated_at := v_now }
          else x) ho
      have hfo : (if o.id == oid then
            ({ o with status := OrderStatus.cancelled, updated_at := v_now } : OrderRow) else o) =
          { o with status := OrderStatus.cancelled, updated_at := v_now } := by
        simp [hid]
      simpa only [hfo] using hmem
    · intro x hx hxid
      have hmem := List.mem_map_of_mem
        (fun y => if y.id == oid then { y with status := OrderStatus.cancelled, updated_at := v_now }
          else y) hx
      have hfx : (if x.id == oid then
            ({ x with status := OrderStatus.cancelled, updated_at := v_now } : OrderRow) else x) = x := by
        simp [hxid]
      simpa only [hfx] using hmem

/-- Witness for C9: the already paid sample order cannot be cancelled, while
cancelling the pending one succeeds. -/
theorem C9_cancel_pending_only_witness :
    cancelOrder sampleState 4 5 = Except.error "Cannot cancel order in current status" ∧
    (cancelOrder sampleState 4 2).isOk = true := by
  constructor
  · exact (C9_cancel_pending_only sampleState 4 5 sampleOrder5 (by simp [sampleState]) rfl
      (by simp [OrderIdsDistinct, sampleState]; decide)).1 (by decide)
  · obtain ⟨s', heq, -⟩ := (C9_cancel_pending_only sampleState 4 2 sampleOrder
      (by simp [sampleState]) rfl (by simp [OrderIdsDistinct, sampleState]; decide)).2 rfl
    rw [heq]
    rfl

/-- Total quantity the order input requests for one product. -/
def decSum (items : List OrderItemInput) (pid : Nat) : Int :=
  ((items.filter (fun it => it.product_id == pid)).map (fun it => it.quantity)).sum

/-- When the stock loop succeeds, each product's stock has been decremented by
exactly the summed quantity the input requested for it. -/
theorem processItems_ok_mem (items : List OrderItemInput) :
    ∀ (ps ps' : List Product), processItems items ps = Except.ok ps' →
      ∀ p ∈ ps, ({ p with stock := p.stock - decSum items p.id } : Product) ∈ ps' := by
  induction items with
  | nil =>
    intro ps ps' h p hp
    simp only [processItems, Except.ok.injEq] at h
    subst h
    simpa [decSum] using hp
  | cons it rest ih =>
    intro ps ps' h p hp
    cases hf : ps.find? (fun q => q.id == it.product_id && q.is_available) with
    | none => simp [processItems, hf] at h
    | some p0 =>
      by_cases hs : p0.stock < it.quantity
      · simp [processItems, hf, hs] at h
      · simp only [processItems, hf, if_neg hs] at h
        by_cases hid : p.id = it.product_id
        · have hmem : ({ p with stock := p.stock - it.quantity } : Product) ∈
              updateStock ps it.product_id it.quantity := by
            have := List.mem_map_of_mem
              (fun q => if q.id == it.product_id then { q with stock := q.stock - it.quantity }
                else q) hp
            simpa [updateStock, hid] using this
          have hq : decSum (it :: rest) p.id = it.quantity + decSum rest p.id := by
            simp [decSum, List.filter_cons, hid]
          have := ih _ _ h _ hmem
          simpa [hq, sub_sub] using this
        · have hmem : p ∈ updateStock ps it.product_id it.quantity := by
            have := List.mem_map_of_mem
              (fun q => if q.id == it.product_id then { q with stock := q.stock - it.quantity }
                else q) hp
            simpa [updateStock, hid] using this
          have hq : decSum (it :: rest) p.id = decSum rest p.id := by
            have hne : ¬(it.product_id == p.id) = true := by
              simp
              exact fun hc => hid hc.symm
            simp [decSum, List.filter_cons, hne]
          have := ih _ _ h p hmem
          simpa [hq] using this

/-- Inversion of a successful transactional block of place_order_complete:
every guard passed and the result state has exactly the inserted rows. -/
theorem placeOrderTxn_ok_inv (s : DBState) (v_now : Nat) (onum : String)
    (uid : Option Nat) (addr : String) (coords : Option String) (total fee : Int)
    (items : List OrderItemInput) (slip tref : Option String) (s' : DBState)
    (h : placeOrderTxn s v_now onum uid addr coords total fee items slip tref
      = Except.ok s') :
    s.store_settings.is_store_open = true ∧
    ∃ ps, processItems items s.products = Except.ok ps ∧
      ¬ total < 0 ∧
      (s.orders.any fun o => o.order_number == onum) = false ∧
      transRefTaken s.orders tref = false ∧
      (items.any fun it => it.quantity ≤ 0) = false ∧
      (items.any fun it => it.unit_price < 0) = false ∧
      s' = { s with
        products := ps
        orders := s.orders ++
          [{ id := s.next_id, user_id := uid, order_number := onum, total_price := total,
             shipping_fee := fee, shipping_address := addr, shipping_coordinates := coords,
             shipping_method := "delivery", status := OrderStatus.pending,
             payment_slip_url := slip, trans_ref := tref, thunder_verified := false,
             verified_at := none, created_at := v_now, updated_at := v_now }]
        order_items := s.order_items ++
          items.enum.map (fun pr =>
            { id := s.next_id + 1 + pr.1, order_id := s.next_id,
              product_id := pr.2.product_id, quantity := pr.2.quantity,
              unit_price := pr.2.unit_price })
        activity_logs := s.activity_logs ++
          [{ user_id := uid, action_type := "ORDER_CREATED", table_name := some "orders",
             record_id := some s.next_id,
             new_data := some (LogData.orderCreated onum total items.length),
             error_message := none }]
        next_id := s.next_id + 1 + items.length } := by
  by_cases h1 : s.store_settings.is_store_open = true
  · cases hproc : processItems items s.products with
    | error e => simp [placeOrderTxn, h1, hproc] at h
    | ok ps =>
      by_cases h2 : total < 0
      · simp [placeOrderTxn, h1, hproc, h2] at h
      · by_cases h3 : (s.orders.any fun o => o.order_number == onum) = true
        · simp [placeOrderTxn, h1, hproc, h2, h3] at h
        · by_cases h4 : transRefTaken s.orders tref = true
          · simp [placeOrderTxn, h1, hproc, h2, h3, h4] at h
          · by_cases h5 : (items.any fun it => it.quantity ≤ 0) = true
            · simp [placeOrderTxn, h1, hproc, h2, h3, h4, h5] at h
            · by_cases h6 : (items.any fun it => it.unit_price < 0) = true
              · simp [placeOrderTxn, h1, hproc, h2, h3, h4, h5, h6] at h
              · rw [Bool.not_eq_true] at h3 h4 h5 h6
                simp [placeOrderTxn, h1, hproc, h2, h3, h4, h5, h6] at h
                exact ⟨h1, ps, rfl, h2, h3, h4, h5, h6, h.symm⟩
  · rw [Bool.not_eq_true] at h1
    simp [placeOrderTxn, h1] at h

/-- C2 (amended): place_order_complete rejects when the store is closed,
rejects with the loop's error when a product is unavailable or its stock at
that point of the loop is insufficient, and (fourth part) also rejects —
with the tables rolled back — whenever the inserted rows would violate a
schema constraint (negative total_price, duplicate order number, duplicate
trans_ref, non-positive item quantity, negative unit price); provided the
inserted rows satisfy those constraints, it otherwise decrements each
product's stock by the summed requested quantity, appends the single 'pending'
order with the given totals, one order_items row per input item and the
ORDER_CREATED activity row, and reports success with the new order id and
order number. -/
theorem C2_place_order_steps (s : DBState) (v_now : Nat) (onum : String)
    (uid : Option Nat) (addr : String) (coords : Option String) (total fee : Int)
    (items : List OrderItemInput) (slip tref : Option String) :
    (s.store_settings.is_store_open = false →
      place_order_complete s v_now onum uid addr coords total fee items slip tref =
        ({ s with
            activity_logs := s.activity_logs ++
              [{ user_id := uid, action_type := "ORDER_ERROR", table_name := none,
                 record_id := none, new_data := none,
                 error_message := some "STORE_CLOSED: Store is currently closed" }] },
          { success := false, error := some "STORE_CLOSED: Store is currently closed",
            order_id := none, order_number := none, message := none })) ∧
    (∀ e, s.store_settings.is_store_open = true →
      processItems items s.products = Except.error e →
      place_order_complete s v_now onum uid addr coords total fee items slip tref =
        ({ s with
            activity_logs := s.activity_logs ++
              [{ user_id := uid, action_type := "ORDER_ERROR", table_name := none,
                 record_id := none, new_data := none, error_message := some e }] },
          { success := false, error := some e, order_id := none, order_number := none,
            message := none })) ∧
    (∀ ps, s.store_settings.is_store_open = true →
      processItems items s.products = Except.ok ps →
      0 ≤ total →
      (s.orders.any fun o => o.order_number == onum) = false →
      transRefTaken s.orders tref = false →
      (∀ it ∈ items, 0 < it.quantity ∧ 0 ≤ it.unit_price) →
      place_order_complete s v_now onum uid addr coords total fee items slip tref =
        ({ s with
            products := ps
            orders := s.orders ++
              [{ id := s.next_id, user_id := uid, order_number := onum, total_price := total,
                 shipping_fee := fee, shipping_address := addr,
                 shipping_coordinates := coords, shipping_method := "delivery",
                 status := OrderStatus.pending, payment_slip_url := slip, trans_ref := tref,
                 thunder_verified := false, verified_at := none, created_at := v_now,
                 updated_at := v_now }]
            order_items := s.order_items ++
              items.enum.map (fun pr =>
                { id := s.next_id + 1 + pr.1, order_id := s.next_id,
                  product_id := pr.2.product_id, quantity := pr.2.quantity,
                  unit_price := pr.2.unit_price })
            activity_logs := s.activity_logs ++
              [{ user_id := uid, action_type := "ORDER_CREATED", table_name := some "orders",
                 record_id := some s.next_id,
                 new_data := some (LogData.orderCreated onum total items.length),
                 error_message := none }]
            next_id := s.next_id + 1 + items.length },
          { success := true, error := none, order_id := some s.next_id,
            order_number := some onum, message := some "Order placed successfully" }) ∧
      (∀ p ∈ s.products,
        ({ p with stock := p.stock - decSum items p.id } : Product) ∈ ps)) ∧
    (total < 0 ∨
      (s.orders.any fun o => o.order_number == onum) = true ∨
      transRefTaken s.orders tref = true ∨
      (items.any fun it => it.quantity ≤ 0) = true ∨
      (items.any fun it => it.unit_price < 0) = true →
      (place_order_complete s v_now onum uid addr coords total fee items slip tref).2.success
          = false ∧
      (place_order_complete s v_now onum uid addr coords total fee items slip tref).1.orders
          = s.orders ∧
      (place_order_complete s v_now onum uid addr coords total fee items slip tref).1.order_items
          = s.order_items ∧
      (place_order_complete s v_now onum uid addr coords total fee items slip tref).1.products
          = s.products) := by
  refine ⟨?_, ?_, ?_, ?_⟩
  · intro hclosed
    simp [place_order_complete, placeOrderTxn, hclosed]
  · intro e hopen hproc
    simp [place_order_complete, placeOrderTxn, hopen, hproc]
  · intro ps hopen hproc htotal honum htref hitems
    have ht' : ¬ total < 0 := not_lt.mpr htotal
    have hq1 : (items.any fun it => it.quantity ≤ 0) = false := by
      refine List.any_eq_false.mpr ?_
      intro it hit
      simpa using not_le.mpr (hitems it hit).1
    have hq2 : (items.any fun it => it.unit_price < 0) = false := by
      refine List.any_eq_false.mpr ?_
      intro it hit
      simpa using not_lt.mpr (hitems it hit).2
    constructor
    · simp [place_order_complete, placeOrderTxn, hopen, hproc, ht', honum, htref, hq1, hq2]
    · intro p hp
      exact processItems_ok_mem items s.products ps hproc p hp
  · intro hviol
    cases htxn : placeOrderTxn s v_now onum uid addr coords total fee items slip tref with
    | error msg =>
      refine ⟨?_, ?_, ?_, ?_⟩ <;> simp [place_order_complete, htxn]
    | ok s' =>
      obtain ⟨-, ps, -, htot, honum, htref, hq, hup, -⟩ :=
        placeOrderTxn_ok_inv s v_now onum uid addr coords total fee items slip tref s' htxn
      rcases hviol with h | h | h | h | h
      · exact absurd h htot
      · rw [honum] at h
        exact absurd h (by decide)
      · rw [htref] at h
        exact absurd h (by decide)
      · rw [hq] at h
        exact absurd h (by decide)
      · rw [hup] at h
        exact absurd h (by decide)

/-- A reachable state with an available product in stock. -/
def sOpen : DBState := insertProduct initState "Apple" none 50 10 true

/-- Counterexample to C2 as stated: with the store open and every requested
product available in sufficient stock (vacuously — the item list is empty),
place_order_complete still returns success=false when the given total violates
the CHECK (total_price >= 0) constraint, a rejection the claim's enumeration
of steps does not admit. -/
theorem C2_counterexample :
    sOpen.store_settings.is_store_open = true ∧
    processItems [] sOpen.products = Except.ok sOpen.products ∧
    (place_order_complete sOpen 7 "241011-00002" none "Bangkok" none (-1) 0 [] none none).2.success
      = false ∧
    (place_order_complete sOpen 7 "241011-00002" none "Bangkok" none (-1) 0 [] none none).2.error
      = some "CHECK_VIOLATION: orders.total_price" :=
  ⟨rfl, rfl, rfl, rfl⟩

/-- Witness for C2: a closed store rejects, a valid one-item order on the open
sample store succeeds decrementing the product's stock from 10 to 8, and a
negative total is rejected by the constraint part. -/
theorem C2_place_order_steps_witness :
    (place_order_complete sampleClosed 1 "N2" none "a" none 5 0 [] none none).2.error
      = some "STORE_CLOSED: Store is currently closed" ∧
    (place_order_complete sOpen 7 "241011-00001" none "Bangkok" none 100 0
      [{ product_id := 1, quantity := 2, unit_price := 50 }] none none).2.success = true ∧
    ({ id := 1, name := "Apple", price := 50, stock := 8, image_url := none,
       is_available := true } : Product) ∈
      (place_order_complete sOpen 7 "241011-00001" none "Bangkok" none 100 0
        [{ product_id := 1, quantity := 2, unit_price := 50 }] none none).1.products ∧
    (place_order_complete sOpen 7 "241011-00002" none "Bangkok" none (-1) 0 [] none
      none).2.success = false := by
  have ha := (C2_place_order_steps sampleClosed 1 "N2" none "a" none 5 0 [] none none).1
    (by decide)
  have hc := (C2_place_order_steps sOpen 7 "241011-00001" none "Bangkok" none 100 0
    [{ product_id := 1, quantity := 2, unit_price := 50 }] none none).2.2.1
    [{ id := 1, name := "Apple", price := 50, stock := 8, image_url := none,
       is_available := true }]
    (by decide) rfl (by decide) (by decide) (by decide)
    (by intro it hit; constructor <;> (simp at hit; simp [hit]))
  have hd := (C2_place_order_steps sOpen 7 "241011-00002" none "Bangkok" none (-1) 0 []
    none none).2.2.2 (Or.inl (by decide))
  refine ⟨by rw [ha], by rw [hc.1], ?_, hd.1⟩
  rw [hc.1]
  simp

/-- A pointwise field-preserving map leaves the projected column unchanged. -/
theorem map_field_pointwise {α β : Type} (l : List α) (g : α → β) (f : α → α)
    (hf : ∀ a, g (f a) = g a) : (l.map f).map g = l.map g := by
  induction l with
  | nil => rfl
  | cons a t ih =>
    simp only [List.map]
    exact congrArg₂ List.cons (hf a) ih

/-- A pairwise relation on a projected column transports along equality of the
projected columns. -/
theorem pairwise_rel_of_map_eq {α β : Type} {l l' : List α} (g : α → β)
    (R : β → β → Prop) (h : l'.map g = l.map g)
    (hp : l.Pairwise (fun a b => R (g a) (g b))) :
    l'.Pairwise (fun a b => R (g a) (g b)) := by
  have h1 : (l.map g).Pairwise R := List.pairwise_map.mpr hp
  have h2 : (l'.map g).Pairwise R := h ▸ h1
  exact List.pairwise_map.mp h2

/-- A columnwise property transports along equality of projected columns. -/
theorem forall_field_of_map_eq {α β : Type} {l l' : List α} (g : α → β)
    (P : β → Prop) (h : l'.map g = l.map g) (hb : ∀ a ∈ l, P (g a)) :
    ∀ a ∈ l', P (g a) := by
  intro a ha
  have hmem : g a ∈ l.map g := h ▸ List.mem_map_of_mem g ha
  rcases List.mem_map.mp hmem with ⟨b, hb', he⟩
  exact he ▸ hb b hb'

/-- Pairwise distinctness of a projection makes the projection injective on
members. -/
theorem pairwise_ne_inj {α β : Type} (g : α → β) :
    ∀ (l : List α), l.Pairwise (fun a b => g a ≠ g b) →
      ∀ x ∈ l, ∀ y ∈ l, g x = g y → x = y := by
  intro l
  induction l with
  | nil => intro _ x hx; cases hx
  | cons a t ih =>
    intro h x hx y hy hxy
    rcases List.pairwise_cons.mp h with ⟨ha, ht⟩
    rcases List.mem_cons.mp hx with rfl | hx' <;> rcases List.mem_cons.mp hy with rfl | hy'
    · rfl
    · exact absurd hxy (ha y hy')
    · exact absurd hxy.symm (ha x hx')
    · exact ih ht x hx' y hy' hxy

/-- The second component of an enumFrom member is a member of the list. -/
theorem snd_mem_of_mem_enumFrom {α : Type} (l : List α) :
    ∀ (n : Nat) (x : Nat × α), x ∈ l.enumFrom n → x.2 ∈ l := by
  induction l with
  | nil => intro n x hx; cases hx
  | cons a t ih =>
    intro n x hx
    rcases List.mem_cons.mp hx with rfl | h
    · exact List.mem_cons_self _ _
    · exact List.mem_cons_of_mem _ (ih (n + 1) x h)

/-- The stock loop never changes the id column of products. -/
theorem processItems_ok_map_pid (items : List OrderItemInput) :
    ∀ (ps ps' : List Product), processItems items ps = Except.ok ps' →
      ps'.map (fun p => p.id) = ps.map (fun p => p.id) := by
  induction items with
  | nil =>
    intro ps ps' h
    simp only [processItems, Except.ok.injEq] at h
    rw [h]
  | cons it rest ih =>
    intro ps ps' h
    cases hf : ps.find? (fun q => q.id == it.product_id && q.is_available) with
    | none => simp [processItems, hf] at h
    | some p0 =>
      by_cases hs : p0.stock < it.quantity
      · simp [processItems, hf, hs] at h
      · simp only [processItems, hf, if_neg hs] at h
        have := ih _ _ h
        rw [this]
        exact map_field_pointwise ps (fun p => p.id) _ (by
          intro p
          by_cases hid : p.id == it.product_id <;> simp [hid])

/-- With distinct product ids, the stock loop keeps every stock nonnegative:
the decremented row is exactly the row find? locked, whose stock the guard
verified. -/
theorem processItems_ok_nonneg (items : List OrderItemInput) :
    ∀ (ps ps' : List Product), processItems items ps = Except.ok ps' →
      ProductIdsDistinct ps → (∀ p ∈ ps, 0 ≤ p.stock) →
      ∀ p ∈ ps', 0 ≤ p.stock := by
  induction items with
  | nil =>
    intro ps ps' h hids hnn
    simp only [processItems, Except.ok.injEq] at h
    rw [← h]
    exact hnn
  | cons it rest ih =>
    intro ps ps' h hids hnn
    cases hf : ps.find? (fun q => q.id == it.product_id && q.is_available) with
    | none => simp [processItems, hf] at h
    | some p0 =>
      by_cases hs : p0.stock < it.quantity
      · simp [processItems, hf, hs] at h
      · simp only [processItems, hf, if_neg hs] at h
        have hp0mem : p0 ∈ ps := List.mem_of_find?_eq_some hf
        have hp0id : p0.id = it.product_id := by
          have := List.find?_some hf
          simp at this
          exact this.1
        have hids0 : ps.Pairwise (fun a b : Product => a.id ≠ b.id) := hids
        have hmapeq : (updateStock ps it.product_id it.quantity).map (fun p : Product => p.id)
            = ps.map (fun p : Product => p.id) :=
          map_field_pointwise ps (fun p : Product => p.id) _ (by
            intro p
            by_cases hid : p.id == it.product_id <;> simp [hid])
        have hids' : ProductIdsDistinct (updateStock ps it.product_id it.quantity) :=
          pairwise_rel_of_map_eq (fun p : Product => p.id) Ne hmapeq hids0
        have hnn' : ∀ p ∈ updateStock ps it.product_id it.quantity, 0 ≤ p.stock := by
          intro p hp
          rcases List.mem_map.mp hp with ⟨x, hx, rfl⟩
          by_cases hid : x.id == it.product_id
          · have hxid : x.id = it.product_id := by simpa using hid
            have hxp0 : x = p0 :=
              pairwise_ne_inj (fun p : Product => p.id) ps hids0 x hx p0 hp0mem
                (hxid.trans hp0id.symm)
            rw [if_pos hid]
            simp only [hxp0]
            omega
          · rw [if_neg hid]
            exact hnn x hx
        exact ih _ _ h hids' hnn'

/-- The database well-formedness invariant: primary keys are distinct, the
CHECK constraints hold (stock >= 0, total_price >= 0, quantity > 0), the
trans_ref UNIQUE constraint holds, and generated ids stay below the
generator. -/
structure WF (s : DBState) : Prop where
  pids : ProductIdsDistinct s.products
  oids : OrderIdsDistinct s.orders
  stock_nonneg : ∀ p ∈ s.products, 0 ≤ p.stock
  total_nonneg : ∀ o ∈ s.orders, 0 ≤ o.total_price
  trans_distinct : TransRefsDistinct s.orders
  pid_lt : ∀ p ∈ s.products, p.id < s.next_id
  oid_lt : ∀ o ∈ s.orders, o.id < s.next_id
  qty_pos : ∀ it ∈ s.order_items, 0 < it.quantity

/-- place_order_complete preserves the database invariant. -/
theorem wf_place (s : DBState) (v_now : Nat) (onum : String) (uid : Option Nat)
    (addr : String) (coords : Option String) (total fee : Int)
    (items : List OrderItemInput) (slip tref : Option String) (h : WF s) :
    WF (place_order_complete s v_now onum uid addr coords total fee items slip tref).1 := by
  cases htxn : placeOrderTxn s v_now onum uid addr coords total fee items slip tref with
  | error msg =>
    have hres : (place_order_complete s v_now onum uid addr coords total fee items slip
        tref).1 = { s with
          activity_logs := s.activity_logs ++
            [{ user_id := uid, action_type := "ORDER_ERROR", table_name := none,
               record_id := none, new_data := none, error_message := some msg }] } := by
      simp [place_order_complete, htxn]
    rw [hres]
    exact ⟨h.pids, h.oids, h.stock_nonneg, h.total_nonneg, h.trans_distinct, h.pid_lt,
      h.oid_lt, h.qty_pos⟩
  | ok s' =>
    have hres : (place_order_complete s v_now onum uid addr coords total fee items slip
        tref).1 = s' := by
      simp [place_order_complete, htxn]
    rw [hres]
    obtain ⟨hopen, ps, hproc, htot, honum, htref, hq, hup, hs'⟩ :=
      placeOrderTxn_ok_inv s v_now onum uid addr coords total fee items slip tref s' htxn
    subst hs'
    have hmapeq : ps.map (fun p : Product => p.id) = s.products.map (fun p : Product => p.id) :=
      processItems_ok_map_pid items s.products ps hproc
    refine ⟨?_, ?_, ?_, ?_, ?_, ?_, ?_, ?_⟩
    · exact pairwise_rel_of_map_eq (fun p : Product => p.id) Ne hmapeq h.pids
    · refine List.pairwise_append.mpr ⟨h.oids, List.pairwise_singleton _ _, ?_⟩
      intro a ha b hb
      rcases List.mem_singleton.mp hb with rfl
      have hlt := h.oid_lt a ha
      show a.id ≠ s.next_id
      omega
    · exact processItems_ok_nonneg items s.products ps hproc h.pids h.stock_nonneg
    · intro o ho
      rcases List.mem_append.mp ho with ho | ho
      · exact h.total_nonneg o ho
      · rcases List.mem_singleton.mp ho with rfl
        show 0 ≤ total
        omega
    · refine List.pairwise_append.mpr ⟨h.trans_distinct, List.pairwise_singleton _ _, ?_⟩
      intro a ha b hb
      rcases List.mem_singleton.mp hb with rfl
      intro u hau
      show tref ≠ some u
      cases htr : tref with
      | none => simp
      | some t =>
        rw [htr] at htref
        have hne := List.any_eq_false.mp htref a ha
        simp only [beq_iff_eq] at hne
        intro hc
        injection hc with hc'
        subst hc'
        exact hne hau
    · intro p hp
      have hb : p.id < s.next_id := forall_field_of_map_eq (fun p : Product => p.id)
        (fun i => i < s.next_id) hmapeq h.pid_lt p hp
      show p.id < s.next_id + 1 + items.length
      omega
    · intro o ho
      rcases List.mem_append.mp ho with ho | ho
      · have := h.oid_lt o ho
        show o.id < s.next_id + 1 + items.length
        omega
      · rcases List.mem_singleton.mp ho with rfl
        show s.next_id < s.next_id + 1 + items.length
        omega
    · intro it hit
      rcases List.mem_append.mp hit with hit | hit
      · exact h.qty_pos it hit
      · rcases List.mem_map.mp hit with ⟨pr, hpr, rfl⟩
        have hmem : pr.2 ∈ items := snd_mem_of_mem_enumFrom items 0 pr hpr
        have hq' := List.any_eq_false.mp hq pr.2 hmem
        simp only [decide_eq_true_eq] at hq'
        show 0 < pr.2.quantity
        omega

/-- verify_payment_slip preserves the database invariant. -/
theorem wf_verify (s : DBState) (v_now oid : Nat) (tref : Option String) (amt : Int)
    (slip : Option String) (h : WF s) :
    WF (verify_payment_slip s v_now oid tref amt slip).1 := by
  by_cases h1 : (s.orders.any fun o => o.id == oid && o.trans_ref == none) = true
  · by_cases h2 : transRefTaken s.orders tref = true
    · have hres : (verify_payment_slip s v_now oid tref amt slip).1 = s := by
        simp [verify_payment_slip, h1, h2]
      rw [hres]
      exact h
    · rw [Bool.not_eq_true] at h2
      by_cases h3 : (tref == (none : Option String) || tref == some "") = true
      · have hres : (verify_payment_slip s v_now oid tref amt slip).1 = { s with
            activity_logs := s.activity_logs ++
              [{ user_id := none, action_type := "PAYMENT_FAILED", table_name := some "orders",
                 record_id := some oid, new_data := none,
                 error_message := some "Invalid transaction reference" }] } := by
          simp [verify_payment_slip, h1, h2, h3]
        rw [hres]
        exact ⟨h.pids, h.oids, h.stock_nonneg, h.total_nonneg, h.trans_distinct, h.pid_lt,
          h.oid_lt, h.qty_pos⟩
      · cases tref with
        | none => simp at h3
        | some t =>
          have ht : ¬ t = "" := by simpa using h3
          have hres : (verify_payment_slip s v_now oid (some t) amt slip).1 = { s with
              orders := s.orders.map (verifyUpdate v_now oid t slip)
              activity_logs := s.activity_logs ++
                [{ user_id := none, action_type := "PAYMENT_VERIFIED",
                   table_name := some "orders", record_id := some oid,
                   new_data := some (LogData.paymentVerified t amt),
                   error_message := none }] } := by
            simp [verify_payment_slip, h1, h2, ht]
          rw [hres]
          have hmapid : (s.orders.map (verifyUpdate v_now oid t slip)).map
              (fun o : OrderRow => o.id) = s.orders.map (fun o : OrderRow => o.id) :=
            map_field_pointwise s.orders (fun o : OrderRow => o.id) _ (by
              intro o
              by_cases hid : o.id == oid <;> simp [verifyUpdate, hid])
          have hmaptot : (s.orders.map (verifyUpdate v_now oid t slip)).map
              (fun o : OrderRow => o.total_price)
              = s.orders.map (fun o : OrderRow => o.total_price) :=
            map_field_pointwise s.orders (fun o : OrderRow => o.total_price) _ (by
              intro o
              by_cases hid : o.id == oid <;> simp [verifyUpdate, hid])
          have h2' : (s.orders.any fun o => o.trans_ref == some t) = false := h2
          have hfresh : ∀ o ∈ s.orders, o.trans_ref ≠ some t := by
            intro o ho
            simpa using List.any_eq_false.mp h2' o ho
          refine ⟨h.pids, ?_, h.stock_nonneg, ?_, ?_, h.pid_lt, ?_, h.qty_pos⟩
          · exact pairwise_rel_of_map_eq (fun o : OrderRow => o.id) Ne hmapid h.oids
          · exact forall_field_of_map_eq (fun o : OrderRow => o.total_price)
              (fun x => 0 ≤ x) hmaptot h.total_nonneg
          · have hcomb := List.Pairwise.and h.oids h.trans_distinct
            refine List.pairwise_map.mpr ?_
            refine List.Pairwise.imp_of_mem ?_ hcomb
            intro a b ha hb hr
            obtain ⟨hne, htr⟩ := hr
            intro u hau
            by_cases hbid : b.id == oid
            · by_cases haid : a.id == oid
              · have hab : a.id = b.id := by
                  have e1 : a.id = oid := by simpa using haid
                  have e2 : b.id = oid := by simpa using hbid
                  rw [e1, e2]
                exact absurd hab hne
              · simp only [verifyUpdate, haid, Bool.false_eq_true, if_false] at hau
                simp only [verifyUpdate, hbid, if_true]
                intro hc
                injection hc with hc'
                subst hc'
                exact hfresh a ha hau
            · simp only [verifyUpdate, hbid, Bool.false_eq_true, if_false]
              by_cases haid : a.id == oid
              · simp only [verifyUpdate, haid, if_true] at hau
                injection hau with hau'
                subst hau'
                exact hfresh b hb
              · simp only [verifyUpdate, haid, Bool.false_eq_true, if_false] at hau
                exact htr u hau
          · exact forall_field_of_map_eq (fun o : OrderRow => o.id)
              (fun i => i < s.next_id) hmapid h.oid_lt
  · rw [Bool.not_eq_true] at h1
    have hres : (verify_payment_slip s v_now oid tref amt slip).1 = s := by
      simp [verify_payment_slip, h1]
    rw [hres]
    exact h

/-- updateOrderStatus preserves the database invariant. -/
theorem wf_updateStatus (s : DBState) (v_now oid : Nat) (st : OrderStatus) (h : WF s) :
    WF (updateOrderStatus s v_now oid st) := by
  have hmapid : ((s.orders.map (fun o =>
        if o.id == oid then { o with status := st, updated_at := v_now } else o)).map
      (fun o : OrderRow => o.id)) = s.orders.map (fun o : OrderRow => o.id) :=
    map_field_pointwise s.orders (fun o : OrderRow => o.id) _ (by
      intro o
      by_cases hid : o.id == oid <;> simp [hid])
  have hmaptot : ((s.orders.map (fun o =>
        if o.id == oid then { o with status := st, updated_at := v_now } else o)).map
      (fun o : OrderRow => o.total_price)) = s.orders.map (fun o : OrderRow => o.total_price) :=
    map_field_pointwise s.orders (fun o : OrderRow => o.total_price) _ (by
      intro o
      by_cases hid : o.id == oid <;> simp [hid])
  have hmaptr : ((s.orders.map (fun o =>
        if o.id == oid then { o with status := st, updated_at := v_now } else o)).map
      (fun o : OrderRow => o.trans_ref)) = s.orders.map (fun o : OrderRow => o.trans_ref) :=
    map_field_pointwise s.orders (fun o : OrderRow => o.trans_ref) _ (by
      intro o
      by_cases hid : o.id == oid <;> simp [hid])
  refine ⟨h.pids, ?_, h.stock_nonneg, ?_, ?_, h.pid_lt, ?_, h.qty_pos⟩
  · exact pairwise_rel_of_map_eq (fun o : OrderRow => o.id) Ne hmapid h.oids
  · exact forall_field_of_map_eq (fun o : OrderRow => o.total_price) (fun x => 0 ≤ x)
      hmaptot h.total_nonneg
  · exact pairwise_rel_of_map_eq (fun o : OrderRow => o.trans_ref)
      (fun x y => ∀ u, x = some u → y ≠ some u) hmaptr h.trans_distinct
  · exact forall_field_of_map_eq (fun o : OrderRow => o.id) (fun i => i < s.next_id)
      hmapid h.oid_lt

/-- Folding increment_product_stock leaves the id column unchanged. -/
theorem stock_foldl_map_pid (l : List OrderItemRow) :
    ∀ ps : List Product,
      ((l.foldl (fun acc it => increment_product_stock acc it.product_id it.quantity) ps).map
        (fun p : Product => p.id)) = ps.map (fun p : Product => p.id) := by
  induction l with
  | nil => intro ps; rfl
  | cons it rest ih =>
    intro ps
    have h1 := ih (increment_product_stock ps it.product_id it.quantity)
    have h2 : (increment_product_stock ps it.product_id it.quantity).map
        (fun p : Product => p.id) = ps.map (fun p : Product => p.id) :=
      map_field_pointwise ps (fun p : Product => p.id) _ (by
        intro p
        by_cases hid : p.id == it.product_id <;> simp [hid])
    exact h1.trans h2

/-- Folding increment_product_stock with nonnegative quantities keeps every
stock nonnegative. -/
theorem stock_foldl_nonneg (l : List OrderItemRow) :
    ∀ ps : List Product, (∀ it ∈ l, 0 ≤ it.quantity) → (∀ p ∈ ps, 0 ≤ p.stock) →
      ∀ p ∈ l.foldl (fun acc it => increment_product_stock acc it.product_id it.quantity) ps,
        0 ≤ p.stock := by
  induction l with
  | nil => intro ps _ hnn p hp; exact hnn p hp
  | cons it rest ih =>
    intro ps hq hnn p hp
    refine ih _ (fun x hx => hq x (List.mem_cons_of_mem _ hx)) ?_ p hp
    intro x hx
    rcases List.mem_map.mp hx with ⟨y, hy, rfl⟩
    by_cases hid : y.id == it.product_id
    · rw [if_pos hid]
      have hq0 := hq it (List.mem_cons_self _ _)
      have hs0 := hnn y hy
      show 0 ≤ y.stock + it.quantity
      omega
    · rw [if_neg hid]
      exact hnn y hy

/-- cancelOrder preserves the database invariant. -/
theorem wf_cancel (s s' : DBState) (v_now oid : Nat)
    (hc : cancelOrder s v_now oid = Except.ok s') (h : WF s) : WF s' := by
  cases hfind : s.orders.find? (fun x => x.id == oid) with
  | none => simp [cancelOrder, hfind] at hc
  | some o =>
    by_cases hst : o.status ≠ OrderStatus.pending
    · simp [cancelOrder, hfind, hst] at hc
    · simp only [cancelOrder, hfind, if_neg hst, Except.ok.injEq] at hc
      subst hc
      have hmapid : ((s.orders.map (fun x =>
            if x.id == oid then { x with status := OrderStatus.cancelled, updated_at := v_now }
            else x)).map (fun o : OrderRow => o.id)) = s.orders.map (fun o : OrderRow => o.id) :=
        map_field_pointwise s.orders (fun o : OrderRow => o.id) _ (by
          intro x
          by_cases hid : x.id == oid <;> simp [hid])
      have hmaptot : ((s.orders.map (fun x =>
            if x.id == oid then { x with status := OrderStatus.cancelled, updated_at := v_now }
            else x)).map (fun o : OrderRow => o.total_price))
          = s.orders.map (fun o : OrderRow => o.total_price) :=
        map_field_pointwise s.orders (fun o : OrderRow => o.total_price) _ (by
          intro x
          by_cases hid : x.id == oid <;> simp [hid])
      have hmaptr : ((s.orders.map (fun x =>
            if x.id == oid then { x with status := OrderStatus.cancelled, updated_at := v_now }
            else x)).map (fun o : OrderRow => o.trans_ref))
          = s.orders.map (fun o : OrderRow => o.trans_ref) :=
        map_field_pointwise s.orders (fun o : OrderRow => o.trans_ref) _ (by
          intro x
          by_cases hid : x.id == oid <;> simp [hid])
      have hpidmap := stock_foldl_map_pid
        (s.order_items.filter (fun it => it.order_id == oid)) s.products
      refine ⟨?_, ?_, ?_, ?_, ?_, ?_, ?_, h.qty_pos⟩
      · exact pairwise_rel_of_map_eq (fun p : Product => p.id) Ne hpidmap h.pids
      · exact pairwise_rel_of_map_eq (fun o : OrderRow => o.id) Ne hmapid h.oids
      · refine stock_foldl_nonneg _ s.products ?_ h.stock_nonneg
        intro it hit
        have := h.qty_pos it (List.mem_filter.mp hit).1
        omega
      · exact forall_field_of_map_eq (fun o : OrderRow => o.total_price) (fun x => 0 ≤ x)
          hmaptot h.total_nonneg
      · exact pairwise_rel_of_map_eq (fun o : OrderRow => o.trans_ref)
          (fun x y => ∀ u, x = some u → y ≠ some u) hmaptr h.trans_distinct
      · exact forall_field_of_map_eq (fun p : Product => p.id) (fun i => i < s.next_id)
          hpidmap h.pid_lt
      · exact forall_field_of_map_eq (fun o : OrderRow => o.id) (fun i => i < s.next_id)
          hmapid h.oid_lt

/-- Admin product creation (subject to the CHECK constraints) preserves the
database invariant. -/
theorem wf_newProduct (s : DBState) (name : String) (image : Option String)
    (price stock : Int) (avail : Bool) (hs : 0 ≤ stock) (h : WF s) :
    WF (insertProduct s name image price stock avail) := by
  refine ⟨?_, h.oids, ?_, h.total_nonneg, h.trans_distinct, ?_, ?_, h.qty_pos⟩
  · refine List.pairwise_append.mpr ⟨h.pids, List.pairwise_singleton _ _, ?_⟩
    intro a ha b hb
    rcases List.mem_singleton.mp hb with rfl
    have := h.pid_lt a ha
    show a.id ≠ s.next_id
    omega
  · intro p hp
    rcases List.mem_append.mp hp with hp | hp
    · exact h.stock_nonneg p hp
    · rcases List.mem_singleton.mp hp with rfl
      exact hs
  · intro p hp
    rcases List.mem_append.mp hp with hp | hp
    · have := h.pid_lt p hp
      show p.id < s.next_id + 1
      omega
    · rcases List.mem_singleton.mp hp with rfl
      show s.next_id < s.next_id + 1
      omega
  · intro o ho
    have := h.oid_lt o ho
    show o.id < s.next_id + 1
    omega

/-- The freshly migrated database satisfies the invariant. -/
theorem wf_init : WF initState := by
  refine ⟨List.Pairwise.nil, List.Pairwise.nil, ?_, ?_, List.Pairwise.nil, ?_, ?_, ?_⟩ <;>
    (intro x hx; cases hx)

/-- Every reachable database state satisfies the invariant. -/
theorem reachable_wf {s : DBState} (h : Reachable s) : WF s := by
  induction h with
  | init => exact wf_init
  | step hr hstep ih =>
    cases hstep with
    | placeOrder v_now onum uid addr coords total fee items slip tref =>
      exact wf_place _ v_now onum uid addr coords total fee items slip tref ih
    | verifySlip v_now oid tref amt slip =>
      exact wf_verify _ v_now oid tref amt slip ih
    | updateStatus v_now oid st =>
      exact wf_updateStatus _ v_now oid st ih
    | cancel =>
      rename_i b c d
      exact wf_cancel _ _ b c d ih
    | newProduct name image price stock avail hp hs =>
      exact wf_newProduct _ name image price stock avail hs ih
    | setSettings st =>
      exact ⟨ih.pids, ih.oids, ih.stock_nonneg, ih.total_nonneg, ih.trans_distinct,
        ih.pid_lt, ih.oid_lt, ih.qty_pos⟩

/-- C3: in every reachable database state every product's stock is
nonnegative: place_order_complete decrements only after verifying the locked
row's stock, the (spec-modelled) increment_product_stock used by cancelOrder
only adds the positive item quantities, and every product write is subject to
CHECK (stock >= 0). -/
theorem C3_stock_nonneg (s : DBState) (h : Reachable s) :
    ∀ p ∈ s.products, 0 ≤ p.stock :=
  (reachable_wf h).stock_nonneg

/-- Witness for C3: the stock of the product inserted into the fresh store is
nonnegative. -/
theorem C3_stock_nonneg_witness :
    0 ≤ ({ id := 1, name := "Apple", price := 50, stock := 10, image_url := none,
           is_available := true } : Product).stock :=
  C3_stock_nonneg (insertProduct initState "Apple" none 50 10 true)
    (Reachable.step Reachable.init
      (Step.newProduct initState "Apple" none 50 10 true (by decide) (by decide)))
    _ (by decide)

/-- C4 (amended): when some order already carries trans_ref t,
verify_payment_slip called with p_trans_ref = t changes nothing and returns
success=false — with error DUPLICATE_TRANSACTION_REFERENCE when the target
order exists unverified, and with ORDER_NOT_FOUND_OR_ALREADY_VERIFIED when the
target order is itself missing or already verified; and in every reachable
state the non-null trans_refs are pairwise distinct (the UNIQUE constraint). -/
theorem C4_trans_ref_unique :
    (∀ (s : DBState) (v_now oid : Nat) (t : String) (amt : Int) (slip : Option String),
      (∃ o ∈ s.orders, o.trans_ref = some t) →
      (verify_payment_slip s v_now oid (some t) amt slip).1 = s ∧
      (verify_payment_slip s v_now oid (some t) amt slip).2.success = false ∧
      (verify_payment_slip s v_now oid (some t) amt slip).2.error =
        some (if (s.orders.any fun o => o.id == oid && o.trans_ref == none) = true
          then "DUPLICATE_TRANSACTION_REFERENCE"
          else "ORDER_NOT_FOUND_OR_ALREADY_VERIFIED")) ∧
    (∀ s : DBState, Reachable s → TransRefsDistinct s.orders) := by
  constructor
  · intro s v_now oid t amt slip hex
    by_cases h1 : (s.orders.any fun o => o.id == oid && o.trans_ref == none) = true
    · have hdup : transRefTaken s.orders (some t) = true := by
        rcases hex with ⟨o, ho, htr⟩
        exact List.any_eq_true.mpr ⟨o, ho, by simp [htr]⟩
      refine ⟨?_, ?_, ?_⟩
      · simp [verify_payment_slip, h1, hdup]
      · simp [verify_payment_slip, h1, hdup]
      · rw [if_pos h1]
        simp [verify_payment_slip, h1, hdup]
    · rw [Bool.not_eq_true] at h1
      refine ⟨?_, ?_, ?_⟩
      · simp [verify_payment_slip, h1]
      · simp [verify_payment_slip, h1]
      · rw [if_neg (by simp [h1])]
        simp [verify_payment_slip, h1]
  · intro s h
    exact (reachable_wf h).trans_distinct

/-- Counterexample to C4 as stated: order 5 of the sample state already
carries trans_ref "TXREF", yet verify_payment_slip targeting that very order
with the same reference reports ORDER_NOT_FOUND_OR_ALREADY_VERIFIED instead of
DUPLICATE_TRANSACTION_REFERENCE. -/
theorem C4_counterexample :
    sampleOrder5 ∈ sampleState.orders ∧
    sampleOrder5.trans_ref = some "TXREF" ∧
    (verify_payment_slip sampleState 0 5 (some "TXREF") 100 none).2.success = false ∧
    (verify_payment_slip sampleState 0 5 (some "TXREF") 100 none).2.error =
      some "ORDER_NOT_FOUND_OR_ALREADY_VERIFIED" ∧
    (verify_payment_slip sampleState 0 5 (some "TXREF") 100 none).2.error ≠
      some "DUPLICATE_TRANSACTION_REFERENCE" := by
  refine ⟨by decide, rfl, rfl, rfl, by decide⟩

/-- Witness for C4: a duplicate reference against the pending sample order is
refused as DUPLICATE_TRANSACTION_REFERENCE with the state unchanged, and the
uniqueness invariant holds in a concrete reachable state. -/
theorem C4_trans_ref_unique_witness :
    (verify_payment_slip sampleState 0 2 (some "TXREF") 100 none).1 = sampleState ∧
    (verify_payment_slip sampleState 0 2 (some "TXREF") 100 none).2.error =
      some "DUPLICATE_TRANSACTION_REFERENCE" ∧
    TransRefsDistinct (insertProduct initState "Apple" none 50 10 true).orders := by
  have h := C4_trans_ref_unique.1 sampleState 0 2 "TXREF" 100 none
    ⟨sampleOrder5, by decide, rfl⟩
  refine ⟨h.1, ?_, ?_⟩
  · rw [h.2.2]
    decide
  · exact C4_trans_ref_unique.2 _ (Reachable.step Reachable.init
      (Step.newProduct initState "Apple" none 50 10 true (by decide) (by decide)))

/-- C5 (amended): in every reachable database state every order's total_price
is nonnegative — enforced by CHECK (total_price >= 0); the claimed
nonnegativity of shipping_fee is not enforced (the schema has no CHECK on that
column) and fails, see the counterexample. -/
theorem C5_total_nonneg (s : DBState) (h : Reachable s) :
    ∀ o ∈ s.orders, 0 ≤ o.total_price :=
  (reachable_wf h).total_nonneg

/-- The state after placing an order with a negative shipping fee. -/
def C5state : DBState :=
  (place_order_complete initState 0 "NEG" none "addr" none 0 (-5) [] none none).1

/-- The order row that call inserts. -/
def C5order : OrderRow :=
  { id := 1
    user_id := none
    order_number := "NEG"
    total_price := 0
    shipping_fee := -5
    shipping_address := "addr"
    shipping_coordinates := none
    shipping_method := "delivery"
    status := OrderStatus.pending
    payment_slip_url := none
    trans_ref := none
    thunder_verified := false
    verified_at := none
    created_at := 0
    updated_at := 0 }

/-- Counterexample to C5 as stated: a successful place_order_complete call
with p_shipping_fee = -5 produces a reachable state whose single order has a
negative shipping fee — no CHECK constraint guards orders.shipping_fee. -/
theorem C5_counterexample :
    Reachable C5state ∧ C5state.orders = [C5order] ∧ C5order.shipping_fee < 0 :=
  ⟨Reachable.step Reachable.init
      (Step.placeOrder initState 0 "NEG" none "addr" none 0 (-5) [] none none),
    by decide, by decide⟩

/-- Witness for C5: the total price of the concrete reachable order is
nonnegative. -/
theorem C5_total_nonneg_witness : 0 ≤ C5order.total_price :=
  C5_total_nonneg C5state
    (Reachable.step Reachable.init
      (Step.placeOrder initState 0 "NEG" none "addr" none 0 (-5) [] none none))
    C5order (by decide)

end AodShop
